import Mathlib

/-!
Shallow embedding of the training-orchestration core of the repository:
`src/utils/common.py` (`OnlineAvg`, `Stopper`) and `src/trainer.py`
(`Trainer.test` offset bookkeeping, `Trainer.train` epoch loop).
Scalars are modelled as rationals, Python ints as naturals.
-/

/-- `OnlineAvg` from `src/utils/common.py`: streaming arithmetic mean.
Fields `avg` and `n` mirror the Python attributes. -/
structure OnlineAvg where
  avg : ℚ
  n : ℕ
deriving DecidableEq

/-- `OnlineAvg.__init__`: `avg = 0`, `n = 0`. -/
def OnlineAvg.mk0 : OnlineAvg := { avg := 0, n := 0 }

/-- `OnlineAvg.update(new_x)`: `n += 1; avg = (avg * (n - 1) + new_x) / n`. -/
def OnlineAvg.update (a : OnlineAvg) (new_x : ℚ) : OnlineAvg :=
  let n := a.n + 1
  { avg := (a.avg * ((n : ℚ) - 1) + new_x) / (n : ℚ), n := n }

/-- Feeding a whole list of observations one at a time. -/
def OnlineAvg.feed (a : OnlineAvg) (xs : List ℚ) : OnlineAvg :=
  xs.foldl OnlineAvg.update a

/-- `Stopper` from `src/utils/common.py`. Fields mirror the Python
attributes set in `__init__`: `n_observation`, `delta`, `cur_val = None`,
`value_max = 0`, `num_fails = 0`. -/
structure Stopper where
  n_observation : ℕ
  delta : ℚ
  cur_val : Option ℚ
  value_max : ℚ
  num_fails : ℕ
deriving DecidableEq

/-- `Stopper.__init__(n_observation, delta)`: performs no validation and
always returns the object with `cur_val = None`, `value_max = 0`,
`num_fails = 0`. -/
def Stopper.mk0 (n_observation : ℕ) (delta : ℚ) : Stopper :=
  { n_observation := n_observation, delta := delta,
    cur_val := none, value_max := 0, num_fails := 0 }

/-- `Stopper._update_max`: `if value_max < cur_val: value_max = cur_val`.
Reads `cur_val` from the state, as the Python method does; `cur_val` is
always set by `update` before this is reached. -/
def Stopper.update_max (s : Stopper) : Stopper :=
  match s.cur_val with
  | none => s
  | some v => if s.value_max < v then { s with value_max := v } else s

/-- `Stopper._count_fails`: `if value_max - cur_val >= delta: num_fails += 1
else: num_fails = 0`. -/
def Stopper.count_fails (s : Stopper) : Stopper :=
  match s.cur_val with
  | none => s
  | some v =>
    if s.value_max - v ≥ s.delta then { s with num_fails := s.num_fails + 1 }
    else { s with num_fails := 0 }

/-- `Stopper.update(cur_val)`: store `cur_val`, then `_update_max()`,
then `_count_fails()` — note `_update_max` runs FIRST, as in the source. -/
def Stopper.update (s : Stopper) (cur_val : ℚ) : Stopper :=
  (({ s with cur_val := some cur_val }).update_max).count_fails

/-- `Stopper.check_criterion`: `num_fails == n_observation`. -/
def Stopper.check_criterion (s : Stopper) : Bool :=
  s.num_fails == s.n_observation

/-- The `check_criterion` value observed after each successive `update`
with the elements of `vs`. -/
def Stopper.run_trace (s : Stopper) : List ℚ → List Bool
  | [] => []
  | v :: vs =>
    let s1 := s.update v
    s1.check_criterion :: s1.run_trace vs

/-! ## `Trainer.test` (`src/trainer.py`, lines 79–118): batch size and
offset bookkeeping.  The loop body and collaborators (model, metrics) are
external; what is embedded is the arithmetic the code performs. -/

/-- The batch size handed to the `DataLoader` in `Trainer.test`:
`int(self.batch_size / n_tta)` when `n_tta != 0`, else `self.batch_size`
(`int` truncation on a non-negative quotient is floor division). -/
def Trainer.testBatchSize (batch_size n_tta : ℕ) : ℕ :=
  if n_tta != 0 then batch_size / n_tta else batch_size

/-- `i_start = i * loader.batch_size` in `Trainer.test`. -/
def Trainer.iStart (bs i : ℕ) : ℕ := i * bs

/-- `i_stop = min(i_start + loader.batch_size, n_samples)` in `Trainer.test`. -/
def Trainer.iStop (n_samples bs i : ℕ) : ℕ := min (Trainer.iStart bs i + bs) n_samples

/-- `len(loader)` for a `DataLoader` with `drop_last=False`:
the number of batches, `⌈n_samples / bs⌉`. -/
def Trainer.nBatches (n_samples bs : ℕ) : ℕ := (n_samples + bs - 1) / bs

/-! ## `Trainer.train` (`src/trainer.py`, lines 127–158).

The model, optimizer and data are external collaborators; the monitored
accuracy produced by the in-loop `self.test(n_tta=0)` call after epoch `i`
is an oracle `accOf i`, and the accuracy of the final TTA test on the
best checkpoint is an oracle value `accTTA`.  Checkpoints store their
`meta={'acc': acc}` value.  The state records, as ghost traces, the list
of evaluated metrics and the augmentation flag of every `test` call. -/

/-- Mutable state of the `Trainer.train` epoch loop. -/
structure TrainState where
  accMax : ℚ
  bestEpoch : ℕ
  /-- per-epoch checkpoints `epoch{i}.pth.tar`, as (epoch, stored acc) -/
  epochCkpts : List (ℕ × ℚ)
  /-- `best.pth.tar`: `none` if the file was never written -/
  bestCkpt : Option ℚ
  stopper : Stopper
  /-- monitored metrics of the evaluated epochs, in order -/
  evals : List ℚ
  /-- augmentation flag (`n_tta != 0`) of each `test` call, in order -/
  testsAug : List Bool
deriving DecidableEq

/-- State at entry of the loop: `acc_max, best_epoch = 0, 0`, no
checkpoint written yet. -/
def TrainState.mk0 (stopper : Stopper) : TrainState :=
  { accMax := 0, bestEpoch := 0, epochCkpts := [], bestCkpt := none,
    stopper := stopper, evals := [], testsAug := [] }

/-- One iteration of the `for i in range(n_max_epoch)` body: if
`i % test_freq == 0`, test with `n_tta=0`, save the per-epoch checkpoint,
update `acc_max`/`best_epoch`/best checkpoint when `acc > acc_max`, feed
the stopper and return its criterion as the break flag. -/
def Trainer.epochBody (accOf : ℕ → ℚ) (test_freq : ℕ) (s : TrainState) (i : ℕ) :
    TrainState × Bool :=
  if i % test_freq = 0 then
    let acc := accOf i
    let s1 := { s with epochCkpts := s.epochCkpts ++ [(i, acc)],
                       evals := s.evals ++ [acc],
                       testsAug := s.testsAug ++ [false] }
    let s2 := if s1.accMax < acc then
                { s1 with accMax := acc, bestEpoch := i, bestCkpt := some acc }
              else s1
    let st := s2.stopper.update acc
    ({ s2 with stopper := st }, st.check_criterion)
  else (s, false)

/-- The epoch loop over a list of epoch indices; returns the final state
and the epoch at which the stop criterion fired (`none` when the loop ran
to the end of the range). -/
def Trainer.runEpochs (accOf : ℕ → ℚ) (test_freq : ℕ) :
    List ℕ → TrainState → TrainState × Option ℕ
  | [], s => (s, none)
  | i :: rest, s =>
    let p := Trainer.epochBody accOf test_freq s i
    if p.2 then (p.1, some i) else Trainer.runEpochs accOf test_freq rest p.1

/-- What `Trainer.train` did and returned. `loaded` is the checkpoint read
back by `self.classifier.load(self.best_ckpt_path)`; `result` is `none`
when that load fails because `best.pth.tar` was never written (the Python
code raises there and never returns). -/
structure TrainResult where
  state : TrainState
  stopEpoch : Option ℕ
  loaded : Option ℚ
  accTTA : ℚ
  testsAug : List Bool
  result : Option ℚ
deriving DecidableEq

/-- `Trainer.train(n_max_epoch, n_tta, stopper)`: run the epoch loop,
reload the best checkpoint, run one final `test(n_tta=n_tta)` and return
`max(acc_max, acc_tta)`. -/
def Trainer.train (accOf : ℕ → ℚ) (accTTA : ℚ)
    (n_max_epoch test_freq n_tta : ℕ) (stopper : Stopper) : TrainResult :=
  let p := Trainer.runEpochs accOf test_freq (List.range n_max_epoch)
    (TrainState.mk0 stopper)
  let s := p.1
  match s.bestCkpt with
  | none =>
    { state := s, stopEpoch := p.2, loaded := none, accTTA := accTTA,
      testsAug := s.testsAug, result := none }
  | some b =>
    { state := s, stopEpoch := p.2, loaded := some b, accTTA := accTTA,
      testsAug := s.testsAug ++ [n_tta != 0],
      result := some (max s.accMax accTTA) }

/-- The per-epoch monitored accuracies of the end-to-end scenario:
[0.60, 0.62, 0.61, 0.60, 0.59]. -/
def scenarioAccs : ℕ → ℚ :=
  fun i => ([60/100, 62/100, 61/100, 60/100, 59/100] : List ℚ).getD i 0

/-- Loop invariant of `Trainer.train`: `acc_max` is non-negative and
equals the running maximum (with floor 0) of the evaluated metrics, the
best checkpoint exists exactly when `acc_max` is positive and then stores
`acc_max`, the evaluated metrics are the per-epoch checkpoints' stored
metrics, and every in-loop `test` call ran without augmentation. -/
def TrainInv (s : TrainState) : Prop :=
  0 ≤ s.accMax ∧
  s.accMax = s.evals.foldl max 0 ∧
  s.bestCkpt = (if 0 < s.accMax then some s.accMax else none) ∧
  s.evals = s.epochCkpts.map Prod.snd ∧
  (∀ b ∈ s.testsAug, b = false)

/-! ## Helper lemmas -/

/-- Closed form of `Stopper.update`: the best value becomes
`max value_max v` and the failure count is checked against that
POST-update maximum. -/
lemma Stopper.update_def (s : Stopper) (v : ℚ) :
    s.update v =
      { n_observation := s.n_observation, delta := s.delta, cur_val := some v,
        value_max := max s.value_max v,
        num_fails :=
          if max s.value_max v - v ≥ s.delta then s.num_fails + 1 else 0 } := by
  unfold Stopper.update Stopper.update_max Stopper.count_fails
  by_cases hlt : s.value_max < v
  · simp only [hlt, if_true, max_eq_right (le_of_lt hlt)]
    split <;> rfl
  · simp only [hlt, if_false, max_eq_left (not_lt.mp hlt)]
    split <;> rfl

lemma Stopper.update_n_observation (s : Stopper) (v : ℚ) :
    (s.update v).n_observation = s.n_observation := by
  simp [Stopper.update_def]

lemma OnlineAvg.feed_append (a : OnlineAvg) (xs : List ℚ) (x : ℚ) :
    a.feed (xs ++ [x]) = (a.feed xs).update x := by
  simp [OnlineAvg.feed]

lemma OnlineAvg.feed_n (xs : List ℚ) : (OnlineAvg.mk0.feed xs).n = xs.length := by
  induction xs using List.reverseRecOn with
  | nil => rfl
  | append_singleton l x ih =>
    simp [OnlineAvg.feed_append, OnlineAvg.update, ih]

lemma OnlineAvg.feed_avg_mul (xs : List ℚ) :
    (OnlineAvg.mk0.feed xs).avg * xs.length = xs.sum := by
  induction xs using List.reverseRecOn with
  | nil => simp [OnlineAvg.feed, OnlineAvg.mk0]
  | append_singleton l x ih =>
    have hn := OnlineAvg.feed_n l
    have hne : ((l.length : ℚ) + 1) ≠ 0 := by positivity
    rw [OnlineAvg.feed_append]
    simp only [OnlineAvg.update, hn, List.length_append, List.length_cons,
      List.length_nil, List.sum_append, List.sum_cons, List.sum_nil]
    push_cast
    field_simp
    linarith [ih]

lemma foldl_max_le_init (l : List ℚ) (a : ℚ) : a ≤ l.foldl max a := by
  induction l generalizing a with
  | nil => simp
  | cons x xs ih => exact le_trans (le_max_left a x) (ih (max a x))

lemma mem_le_foldl_max {x : ℚ} {l : List ℚ} (h : x ∈ l) (a : ℚ) :
    x ≤ l.foldl max a := by
  induction l generalizing a with
  | nil => cases h
  | cons y ys ih =>
    rcases List.mem_cons.mp h with rfl | h'
    · exact le_trans (le_max_right a x) (foldl_max_le_init ys (max a x))
    · exact ih h' (max a y)

lemma trainInv_mk0 (st : Stopper) : TrainInv (TrainState.mk0 st) := by
  refine ⟨le_refl 0, rfl, by norm_num [TrainState.mk0], rfl, by simp [TrainState.mk0]⟩

lemma Trainer.epochBody_inv {accOf : ℕ → ℚ} {tf : ℕ} {s : TrainState} (i : ℕ)
    (h : TrainInv s) : TrainInv (Trainer.epochBody accOf tf s i).1 := by
  obtain ⟨h0, h1, h2, h3, h4⟩ := h
  unfold Trainer.epochBody
  by_cases hc : i % tf = 0
  · simp only [hc, if_true]
    by_cases hacc : s.accMax < accOf i
    · simp only [hacc, if_true]
      refine ⟨le_of_lt (lt_of_le_of_lt h0 hacc), ?_, ?_, ?_, ?_⟩
      · simp [List.foldl_append, ← h1, max_eq_right (le_of_lt hacc)]
      · simp [lt_of_le_of_lt h0 hacc]
      · simp [h3]
      · intro b hb
        rcases List.mem_append.mp hb with hb' | hb'
        · exact h4 b hb'
        · simpa using hb'
    · simp only [hacc, if_false]
      refine ⟨h0, ?_, h2, ?_, ?_⟩
      · simp [List.foldl_append, ← h1, max_eq_left (not_lt.mp hacc)]
      · simp [h3]
      · intro b hb
        rcases List.mem_append.mp hb with hb' | hb'
        · exact h4 b hb'
        · simpa using hb'
  · simp only [hc, if_false]
    exact ⟨h0, h1, h2, h3, h4⟩

lemma Trainer.runEpochs_inv (accOf : ℕ → ℚ) (tf : ℕ) (l : List ℕ)
    (s : TrainState) (h : TrainInv s) :
    TrainInv (Trainer.runEpochs accOf tf l s).1 := by
  induction l generalizing s with
  | nil => exact h
  | cons i rest ih =>
    unfold Trainer.runEpochs
    by_cases hb : (Trainer.epochBody accOf tf s i).2 = true
    · simp only [hb, if_true]
      exact Trainer.epochBody_inv i h
    · simp only [hb, if_false]
      exact ih _ (Trainer.epochBody_inv i h)

lemma Trainer.train_state (accOf : ℕ → ℚ) (accTTA : ℚ)
    (n_max_epoch test_freq n_tta : ℕ) (stopper : Stopper) :
    (Trainer.train accOf accTTA n_max_epoch test_freq n_tta stopper).state =
      (Trainer.runEpochs accOf test_freq (List.range n_max_epoch)
        (TrainState.mk0 stopper)).1 := by
  unfold Trainer.train
  dsimp only
  split <;> rfl

lemma Trainer.train_eq_of_bestCkpt {accOf : ℕ → ℚ} {accTTA : ℚ}
    {n_max_epoch test_freq n_tta : ℕ} {stopper : Stopper} {b : ℚ}
    (hb : (Trainer.runEpochs accOf test_freq (List.range n_max_epoch)
      (TrainState.mk0 stopper)).1.bestCkpt = some b) :
    Trainer.train accOf accTTA n_max_epoch test_freq n_tta stopper =
      { state := (Trainer.runEpochs accOf test_freq (List.range n_max_epoch)
          (TrainState.mk0 stopper)).1,
        stopEpoch := (Trainer.runEpochs accOf test_freq (List.range n_max_epoch)
          (TrainState.mk0 stopper)).2,
        loaded := some b, accTTA := accTTA,
        testsAug := (Trainer.runEpochs accOf test_freq (List.range n_max_epoch)
          (TrainState.mk0 stopper)).1.testsAug ++ [n_tta != 0],
        result := some (max (Trainer.runEpochs accOf test_freq
          (List.range n_max_epoch) (TrainState.mk0 stopper)).1.accMax accTTA) } := by
  unfold Trainer.train
  simp only [hb]

/-! ## Claims about `Stopper` and `OnlineAvg` -/

/-- Claim C2 (code bug witness): the failure check in `Stopper.update` is
performed against the best value AFTER `_update_max` has run, so with
`improvement_delta = 0` an observation that strictly exceeds the previous
best IS counted as a consecutive failure: from the fresh `Stopper(3, 0)`
(whose best value is 0), the observation 1 sets `num_fails = 1`. -/
theorem stopper_counts_new_best_as_fail :
    (Stopper.mk0 3 0).value_max = 0 ∧ (0 : ℚ) < 1 ∧
    ((Stopper.mk0 3 0).update 1).num_fails = 1 := by
  refine ⟨rfl, by norm_num, ?_⟩
  norm_num [Stopper.update, Stopper.update_max, Stopper.count_fails, Stopper.mk0]

/-- Claim C3: with `failure_threshold = 3` and `improvement_delta = 1/100`,
feeding [0.50, 0.51, 0.50, 0.49, 0.48] yields the `check_criterion`
sequence [false, false, false, false, true]; moreover the third
observation (equal to `best_value - delta` exactly) counts as a failure,
because the comparison is `>=` (boundary inclusive). -/
theorem stopper_boundary_trace :
    Stopper.run_trace (Stopper.mk0 3 (1/100))
      [1/2, 51/100, 1/2, 49/100, 48/100] =
      [false, false, false, false, true] ∧
    ((((Stopper.mk0 3 (1/100)).update (1/2)).update (51/100)).update
      (1/2)).num_fails = 1 := by
  constructor <;>
  norm_num [Stopper.run_trace, Stopper.update, Stopper.update_max,
    Stopper.count_fails, Stopper.mk0, Stopper.check_criterion]

/-- Claim C4 (counterexample): constructing `Stopper` with
`failure_threshold = 0` is NOT rejected — `__init__` performs no
validation and returns a fully formed, usable policy object, whose
`check_criterion` immediately returns `true`. -/
theorem stopper_zero_threshold_not_rejected :
    Stopper.mk0 0 (1/100) =
      { n_observation := 0, delta := 1/100, cur_val := none,
        value_max := 0, num_fails := 0 } ∧
    (Stopper.mk0 0 (1/100)).check_criterion = true :=
  ⟨rfl, rfl⟩

/-- Claim C4 (amended): construction with `failure_threshold = 0` is
accepted without any check, and the resulting policy's `check_criterion`
returns `true` exactly when `num_fails = 0` — in particular right after
construction — rather than signalling a configuration error. -/
theorem stopper_zero_threshold_behavior (d : ℚ) (s : Stopper)
    (h : s.n_observation = 0) :
    (Stopper.mk0 0 d).check_criterion = true ∧
    (s.check_criterion = true ↔ s.num_fails = 0) := by
  refine ⟨rfl, ?_⟩
  simp [Stopper.check_criterion, h]

/-- Witness for `stopper_zero_threshold_behavior` at `d = 0`,
`s = Stopper.mk0 0 0`. -/
theorem stopper_zero_threshold_behavior_witness :
    (Stopper.mk0 0 0).n_observation = 0 ∧
    ((Stopper.mk0 0 0).check_criterion = true ∧
     ((Stopper.mk0 0 0).check_criterion = true ↔
      (Stopper.mk0 0 0).num_fails = 0)) :=
  ⟨rfl, stopper_zero_threshold_behavior 0 (Stopper.mk0 0 0) rfl⟩

/-- Claim C10: the stop signal is not latched.  If `check_criterion` holds
(`num_fails = n_observation`) and one more failing observation arrives
(pre-update best minus the value is at least `delta`), `num_fails` becomes
`n_observation + 1` and `check_criterion` flips back to `false`, because
the criterion compares with equality. -/
theorem stopper_not_latched (s : Stopper) (v : ℚ)
    (h1 : s.check_criterion = true) (h2 : s.value_max - v ≥ s.delta) :
    (s.update v).num_fails = s.n_observation + 1 ∧
    (s.update v).check_criterion = false := by
  have hf : s.num_fails = s.n_observation := by
    simpa [Stopper.check_criterion] using h1
  have hup : (s.update v).num_fails = s.num_fails + 1 := by
    unfold Stopper.update Stopper.update_max Stopper.count_fails
    by_cases hlt : s.value_max < v
    · have hd : s.delta ≤ 0 := le_trans h2 (by linarith)
      simp only [hlt, if_true]
      simp [hd]
    · simp only [hlt, if_false]
      simp [h2]
  refine ⟨hup ▸ congrArg (· + 1) hf, ?_⟩
  simp [Stopper.check_criterion, hup, hf, Stopper.update_n_observation]

/-- Witness for `stopper_not_latched`: after `Stopper(1, 0)` sees 1/2 the
criterion holds; one more non-improving 1/2 un-latches it. -/
theorem stopper_not_latched_witness :
    ((Stopper.mk0 1 0).update (1/2)).check_criterion = true ∧
    ((Stopper.mk0 1 0).update (1/2)).value_max - 1/2 ≥
      ((Stopper.mk0 1 0).update (1/2)).delta ∧
    ((((Stopper.mk0 1 0).update (1/2)).update (1/2)).num_fails =
      ((Stopper.mk0 1 0).update (1/2)).n_observation + 1 ∧
     (((Stopper.mk0 1 0).update (1/2)).update (1/2)).check_criterion = false) := by
  have h1 : ((Stopper.mk0 1 0).update (1/2)).check_criterion = true := by
    norm_num [Stopper.update, Stopper.update_max, Stopper.count_fails,
      Stopper.mk0, Stopper.check_criterion]
  have h2 : ((Stopper.mk0 1 0).update (1/2)).value_max - 1/2 ≥
      ((Stopper.mk0 1 0).update (1/2)).delta := by
    norm_num [Stopper.update, Stopper.update_max, Stopper.count_fails,
      Stopper.mk0]
  exact ⟨h1, h2, stopper_not_latched _ _ h1 h2⟩

/-- Claim C7: after feeding any nonempty finite sequence of observations,
`OnlineAvg.avg` equals the arithmetic mean (sum divided by count) of the
observations fed so far. -/
theorem onlineAvg_mean (xs : List ℚ) (h : xs ≠ []) :
    (OnlineAvg.mk0.feed xs).avg = xs.sum / xs.length := by
  have hn : (xs.length : ℚ) ≠ 0 := by
    exact_mod_cast Nat.cast_ne_zero.mpr (List.length_pos.mpr h).ne'
  rw [eq_div_iff hn]
  exact OnlineAvg.feed_avg_mul xs

/-- Witness for `onlineAvg_mean`: feeding [2, 4, 6] yields the sequential
means [2, 3, 4]. -/
theorem onlineAvg_mean_witness :
    (OnlineAvg.mk0.feed [2]).avg = 2 ∧ (OnlineAvg.mk0.feed [2, 4]).avg = 3 ∧
    (OnlineAvg.mk0.feed [2, 4, 6]).avg = 4 :=
  ⟨(onlineAvg_mean [2] (by simp)).trans (by norm_num),
   (onlineAvg_mean [2, 4] (by simp)).trans (by norm_num),
   (onlineAvg_mean [2, 4, 6] (by simp)).trans (by norm_num)⟩

/-! ## Claims about `Trainer` -/

/-- Claim C1 (code bug witness): in the end-to-end scenario
(`n_max_epoch = 5`, `test_freq = 1`, accuracies [0.60, 0.62, 0.61, 0.60,
0.59], `Stopper(3, 0)`), the loop stops by the criterion at epoch 2, NOT
at epoch 4: since `_update_max` runs before `_count_fails`, with
`delta = 0` every evaluated epoch (0.60, 0.62, 0.61 — including the two
new bests) counts as a failure, so `num_fails` reaches 3 already at
epoch 2.  The returned value is still `max(0.62, accTTA)`. -/
theorem train_scenario_stops_at_epoch_two (a : ℚ) (n_tta : ℕ) :
    (Trainer.train scenarioAccs a 5 1 n_tta (Stopper.mk0 3 0)).stopEpoch =
      some 2 ∧
    (Trainer.train scenarioAccs a 5 1 n_tta (Stopper.mk0 3 0)).result =
      some (max (62/100) a) := by
  constructor <;>
  norm_num [Trainer.train, Trainer.runEpochs, Trainer.epochBody,
    TrainState.mk0, scenarioAccs, Stopper.update, Stopper.update_max,
    Stopper.count_fails, Stopper.mk0, Stopper.check_criterion,
    List.range_succ]

/-- Claim C5 (amended): when at least one evaluated epoch produced a
positive metric, the metric stored in the best checkpoint equals the
maximum over all evaluated epochs' metrics, and hence is at least the
metric of every per-epoch checkpoint.  (When every evaluated metric is
≤ 0 — e.g. all zero — no best checkpoint is written at all; see the
counterexample.) -/
theorem best_ckpt_stores_max (accOf : ℕ → ℚ) (accTTA : ℚ)
    (n_max_epoch test_freq n_tta : ℕ) (stopper : Stopper)
    (h : ∃ m ∈ (Trainer.train accOf accTTA n_max_epoch test_freq n_tta
      stopper).state.evals, 0 < m) :
    (Trainer.train accOf accTTA n_max_epoch test_freq n_tta
        stopper).state.bestCkpt =
      some ((Trainer.train accOf accTTA n_max_epoch test_freq n_tta
        stopper).state.evals.foldl max 0) ∧
    ∀ p ∈ (Trainer.train accOf accTTA n_max_epoch test_freq n_tta
        stopper).state.epochCkpts,
      p.2 ≤ (Trainer.train accOf accTTA n_max_epoch test_freq n_tta
        stopper).state.evals.foldl max 0 := by
  rw [Trainer.train_state] at h ⊢
  obtain ⟨h0, h1, h2, h3, -⟩ :=
    Trainer.runEpochs_inv accOf test_freq (List.range n_max_epoch)
      (TrainState.mk0 stopper) (trainInv_mk0 stopper)
  obtain ⟨m, hm, hmpos⟩ := h
  have hmax : 0 <
      (Trainer.runEpochs accOf test_freq (List.range n_max_epoch)
        (TrainState.mk0 stopper)).1.evals.foldl max 0 :=
    lt_of_lt_of_le hmpos (mem_le_foldl_max hm 0)
  refine ⟨?_, ?_⟩
  · rw [h2, h1, if_pos (h1 ▸ hmax)]
  · intro p hp
    refine mem_le_foldl_max ?_ 0
    rw [h3]
    exact List.mem_map.mpr ⟨p, hp, rfl⟩

/-- Counterexample for claim C5 as stated: a run whose only evaluated
metric is 0 writes NO best checkpoint (`best.pth.tar` does not exist),
since `acc > acc_max` never fires from the initial `acc_max = 0`; the
claim instead asks the best checkpoint to store 0. -/
theorem best_ckpt_missing_when_all_zero :
    (Trainer.train (fun _ => 0) 0 1 1 0 (Stopper.mk0 5 0)).state.evals =
      [0] ∧
    (Trainer.train (fun _ => 0) 0 1 1 0 (Stopper.mk0 5 0)).state.bestCkpt =
      none := by
  constructor <;>
  norm_num [Trainer.train, Trainer.runEpochs, Trainer.epochBody,
    TrainState.mk0, Stopper.update, Stopper.update_max, Stopper.count_fails,
    Stopper.mk0, Stopper.check_criterion, List.range_succ]

/-- Witness for `best_ckpt_stores_max`: the two-epoch run with accuracies
[0.5, 0.3]. -/
theorem best_ckpt_stores_max_witness :
    (∃ m ∈ (Trainer.train (fun i => ([1/2, 3/10] : List ℚ).getD i 0) 0 2 1 0
      (Stopper.mk0 5 0)).state.evals, 0 < m) ∧
    ((Trainer.train (fun i => ([1/2, 3/10] : List ℚ).getD i 0) 0 2 1 0
        (Stopper.mk0 5 0)).state.bestCkpt =
      some ((Trainer.train (fun i => ([1/2, 3/10] : List ℚ).getD i 0) 0 2 1 0
        (Stopper.mk0 5 0)).state.evals.foldl max 0) ∧
     ∀ p ∈ (Trainer.train (fun i => ([1/2, 3/10] : List ℚ).getD i 0) 0 2 1 0
        (Stopper.mk0 5 0)).state.epochCkpts,
       p.2 ≤ (Trainer.train (fun i => ([1/2, 3/10] : List ℚ).getD i 0) 0 2 1 0
        (Stopper.mk0 5 0)).state.evals.foldl max 0) := by
  have hex : ∃ m ∈ (Trainer.train (fun i => ([1/2, 3/10] : List ℚ).getD i 0)
      0 2 1 0 (Stopper.mk0 5 0)).state.evals, 0 < m := by
    refine ⟨1/2, ?_, by norm_num⟩
    norm_num [Trainer.train, Trainer.runEpochs, Trainer.epochBody,
      TrainState.mk0, Stopper.update, Stopper.update_max, Stopper.count_fails,
      Stopper.mk0, Stopper.check_criterion, List.range_succ]
  exact ⟨hex, best_ckpt_stores_max _ _ _ _ _ _ hex⟩

/-- Claim C6: whenever the epoch loop has written a best checkpoint
(stored metric `b`), `Trainer.train` reloads exactly that checkpoint,
runs exactly one evaluation pass with augmentation enabled (for positive
`n_tta`; the in-loop tests all run unaugmented), and returns
`max(acc_max, acc_tta)`. -/
theorem train_final_phase (accOf : ℕ → ℚ) (accTTA : ℚ)
    (n_max_epoch test_freq n_tta : ℕ) (stopper : Stopper) (b : ℚ)
    (hb : (Trainer.train accOf accTTA n_max_epoch test_freq n_tta
      stopper).state.bestCkpt = some b)
    (ht : 0 < n_tta) :
    (Trainer.train accOf accTTA n_max_epoch test_freq n_tta stopper).loaded =
      some b ∧
    (Trainer.train accOf accTTA n_max_epoch test_freq n_tta stopper).result =
      some (max (Trainer.train accOf accTTA n_max_epoch test_freq n_tta
        stopper).state.accMax accTTA) ∧
    (Trainer.train accOf accTTA n_max_epoch test_freq n_tta
      stopper).testsAug.count true = 1 := by
  rw [Trainer.train_state] at hb
  have heq := @Trainer.train_eq_of_bestCkpt accOf accTTA n_max_epoch
    test_freq n_tta stopper b hb
  obtain ⟨-, -, -, -, h4⟩ :=
    Trainer.runEpochs_inv accOf test_freq (List.range n_max_epoch)
      (TrainState.mk0 stopper) (trainInv_mk0 stopper)
  have h0 : (Trainer.runEpochs accOf test_freq (List.range n_max_epoch)
      (TrainState.mk0 stopper)).1.testsAug.count true = 0 := by
    rw [List.count_eq_zero]
    intro hmem
    exact absurd (h4 true hmem) (by simp)
  have htt : (n_tta != 0) = true := by simp [Nat.pos_iff_ne_zero.mp ht]
  rw [heq]
  refine ⟨rfl, rfl, ?_⟩
  simp [List.count_append, h0, htt]

/-- Witness for `train_final_phase`: a one-epoch run with accuracy 0.5 and
a TTA test with `n_tta = 2` returning 0.7. -/
theorem train_final_phase_witness :
    ((Trainer.train (fun _ => 1/2) (7/10) 1 1 2
        (Stopper.mk0 3 0)).state.bestCkpt = some (1/2) ∧ 0 < 2) ∧
    ((Trainer.train (fun _ => 1/2) (7/10) 1 1 2 (Stopper.mk0 3 0)).loaded =
      some (1/2) ∧
     (Trainer.train (fun _ => 1/2) (7/10) 1 1 2 (Stopper.mk0 3 0)).result =
      some (max (Trainer.train (fun _ => 1/2) (7/10) 1 1 2
        (Stopper.mk0 3 0)).state.accMax (7/10)) ∧
     (Trainer.train (fun _ => 1/2) (7/10) 1 1 2
        (Stopper.mk0 3 0)).testsAug.count true = 1) := by
  have hb : (Trainer.train (fun _ => 1/2) (7/10) 1 1 2
      (Stopper.mk0 3 0)).state.bestCkpt = some (1/2) := by
    norm_num [Trainer.train, Trainer.runEpochs, Trainer.epochBody,
      TrainState.mk0, Stopper.update, Stopper.update_max, Stopper.count_fails,
      Stopper.mk0, Stopper.check_criterion, List.range_succ]
  exact ⟨⟨hb, by norm_num⟩,
    train_final_phase (fun _ => 1/2) (7/10) 1 1 2 (Stopper.mk0 3 0) (1/2) hb
      (by norm_num)⟩

/-- Claim C8: in `Trainer.test`, for every set size and positive batch
size, each batch's slice `[i_start, i_stop)` stays within bounds, every
sample index is covered by the slice of its own batch (whose index is
below `len(loader)`), and no index is written by two different batches —
so results land exactly once at the correct absolute index, the final
batch possibly short. -/
theorem test_offsets_tile (n bs : ℕ) (hbs : 0 < bs) :
    (∀ i, Trainer.iStop n bs i ≤ n) ∧
    (∀ k, k < n →
      k / bs < Trainer.nBatches n bs ∧
      Trainer.iStart bs (k / bs) ≤ k ∧ k < Trainer.iStop n bs (k / bs)) ∧
    (∀ i j k, Trainer.iStart bs i ≤ k → k < Trainer.iStop n bs i →
      Trainer.iStart bs j ≤ k → k < Trainer.iStop n bs j → i = j) := by
  have key : ∀ i j k, i < j → Trainer.iStart bs j ≤ k →
      k < Trainer.iStop n bs i → False := by
    intro i j k hij hj hi
    have h1 : Trainer.iStop n bs i ≤ (i + 1) * bs := by
      simp [Trainer.iStop, Trainer.iStart, Nat.succ_mul]
    have h2 : (i + 1) * bs ≤ j * bs :=
      mul_le_mul_right' (Nat.succ_le_of_lt hij) bs
    have : k < k := lt_of_lt_of_le hi (le_trans h1 (le_trans h2 hj))
    exact absurd this (lt_irrefl k)
  refine ⟨?_, ?_, ?_⟩
  · intro i
    exact min_le_right _ _
  · intro k hk
    have hmod := Nat.mod_lt k hbs
    have hdm := Nat.div_add_mod k bs
    refine ⟨?_, Nat.div_mul_le_self k bs, ?_⟩
    · have hsplit : n + bs - 1 = (n - 1) + bs := by omega
      rw [Trainer.nBatches, hsplit, Nat.add_div_right _ hbs]
      exact Nat.lt_succ_of_le (Nat.div_le_div_right (by omega))
    · refine lt_min_iff.mpr ⟨?_, hk⟩
      calc k = bs * (k / bs) + k % bs := hdm.symm
        _ < bs * (k / bs) + bs := Nat.add_lt_add_left hmod _
        _ = Trainer.iStart bs (k / bs) + bs := by
            rw [Trainer.iStart, Nat.mul_comm]
  · intro i j k hi1 hi2 hj1 hj2
    rcases lt_trichotomy i j with hij | hij | hij
    · exact absurd (key i j k hij hj1 hi2) (fun f => f)
    · exact hij
    · exact absurd (key j i k hij hi1 hj2) (fun f => f)

/-- Witness for `test_offsets_tile` at the spec's instance: 257 samples,
batch size 256 — batch 0 fills [0, 256), batch 1 fills index 256 alone. -/
theorem test_offsets_tile_witness :
    (0 < 256 ∧ Trainer.nBatches 257 256 = 2 ∧ Trainer.iStart 256 0 = 0 ∧
     Trainer.iStop 257 256 0 = 256 ∧ Trainer.iStart 256 1 = 256 ∧
     Trainer.iStop 257 256 1 = 257) ∧
    ((∀ i, Trainer.iStop 257 256 i ≤ 257) ∧
     (∀ k, k < 257 →
       k / 256 < Trainer.nBatches 257 256 ∧
       Trainer.iStart 256 (k / 256) ≤ k ∧
       k < Trainer.iStop 257 256 (k / 256)) ∧
     (∀ i j k, Trainer.iStart 256 i ≤ k → k < Trainer.iStop 257 256 i →
       Trainer.iStart 256 j ≤ k → k < Trainer.iStop 257 256 j → i = j)) :=
  ⟨⟨by decide, by decide, by decide, by decide, by decide, by decide⟩,
   test_offsets_tile 257 256 (by decide)⟩

/-- Claim C9: when `Trainer.test` is called with `n_tta > 0`, the
`DataLoader` batch size is `int(batch_size / n_tta)`, i.e. the configured
batch size floor-divided by `n_tta`, for every positive configured batch
size and every positive `n_tta` (also when `batch_size` is not a multiple
of `n_tta`). -/
theorem test_tta_batch_size (batch_size n_tta : ℕ)
    (_hbs : 0 < batch_size) (ht : 0 < n_tta) :
    Trainer.testBatchSize batch_size n_tta = batch_size / n_tta := by
  have htt : (n_tta != 0) = true := by simp [Nat.pos_iff_ne_zero.mp ht]
  simp [Trainer.testBatchSize, htt]

/-- Witness for `test_tta_batch_size` at an indivisible pair:
`batch_size = 255`, `n_tta = 2` gives loader batch size 127. -/
theorem test_tta_batch_size_witness :
    (0 < 255 ∧ 0 < 2) ∧
    Trainer.testBatchSize 255 2 = 255 / 2 ∧
    Trainer.testBatchSize 255 2 = 127 :=
  ⟨⟨by decide, by decide⟩, test_tta_batch_size 255 2 (by decide) (by decide),
   by decide⟩
